import Mathlib

/-
Shallow embedding of the SimpleSensor repository (dbenge/SimpleSensor):
  src/simplesensor/communication_modules/mqtt_client/mqttClientModule.py
  src/simplesensor/collection_modules/demographic_camera/azureImagePredictor.py
Python numerics are modelled with Nat and Rat; exceptions are modelled with
Except / Option over an explicit error type; the MQTT worker state is a record
with the sleep durations issued by time.sleep accumulated as an effect trace.
-/

namespace SimpleSensor

/-- Python values that flow through the publish pipeline: strings, numbers
(modelled with Rat), booleans and None. -/
inductive PyVal
  | str : String → PyVal
  | num : ℚ → PyVal
  | boolV : Bool → PyVal
  | noneV : PyVal
deriving DecidableEq, Repr

/-- The Python exception classes the embedded code can raise. -/
inductive PyError
  | nameError
  | attributeError
  | typeError
  | zeroDivisionError
  | unboundLocalError
  | keyError
deriving DecidableEq, Repr

/-- Configuration snapshot of MQTTClientModule.__init__: the instance
attributes read by the modelled methods. self._username is MqttUsername,
self._feedName is MqttFeedName, self._publishJson is MqttPublishJson. -/
structure ModuleConfig where
  username : String
  feedName : String
  publishJson : Bool
deriving DecidableEq, Repr

/-- The module-level binding the bare name `_feedName` in
`if not feed: feed = _feedName` (publish and subscribe) resolves to.
mqttClientModule.py defines no `_feedName` at module scope (its top level holds
only imports and the class), and the local scope of publish/subscribe binds
only self, value and feed, so the lookup falls through global and builtin scope
and fails: in Python this raises NameError. Hence the binding is `none`. -/
def moduleGlobal_feedName : Option String := none

/-- The value of the instance attribute `_publishFaceData` read by
`elif self._publishFaceData:` in process_queue. MQTTClientModule.__init__
assigns _keepAlive, _feedName, _username, _key, _host, _port and _publishJson,
and no other method assigns `_publishFaceData`, so the attribute lookup fails:
in Python this raises AttributeError. Hence the binding is `none`. -/
def instanceAttr_publishFaceData : Option Bool := none

/-- Python truthiness test `not feed` for the feed argument of
publish/subscribe: the default value False and the empty string are falsy.
`none` models an omitted argument (so the default False). -/
def feedFalsy : Option String → Bool
  | none => true
  | some s => s = ""

/-- MQTTClientModule.publish: `if not feed: feed = _feedName` then
`self._client.publish('{0}/feeds/{1}'.format(self._username, feed), payload=value)`.
On success returns the (topic, payload) pair handed to the paho client; the
falsy-feed path reads the unbound module global `_feedName` (see
moduleGlobal_feedName) and raises. -/
def publish (cfg : ModuleConfig) (value : PyVal) (feed : Option String) :
    Except PyError (String × PyVal) :=
  let feedResolved : Except PyError String :=
    if feedFalsy feed then
      match moduleGlobal_feedName with
      | none => .error .nameError
      | some f => .ok f
    else
      match feed with
      | some f => .ok f
      | none => .error .nameError
  match feedResolved with
  | .error e => .error e
  | .ok f => .ok (cfg.username ++ "/feeds/" ++ f, value)

/-- MQTTClientModule.subscribe: same falsy-feed substitution as publish, then
`self._client.subscribe('{0}/feeds/{1}'.format(self._username, feed))`.
Returns the topic string handed to the paho client. -/
def subscribe (cfg : ModuleConfig) (feed : Option String) :
    Except PyError String :=
  if feedFalsy feed then
    match moduleGlobal_feedName with
    | none => .error .nameError
    | some f => .ok (cfg.username ++ "/feeds/" ++ f)
  else
    match feed with
    | some f => .ok (cfg.username ++ "/feeds/" ++ f)
    | none => .error .nameError

/-- Python numeric view of a value, as used by `sum(...)`: numbers are
numeric, and bool is an int subtype in Python (True is 1, False is 0);
strings and None make `sum` raise TypeError. -/
def pyNumeric? : PyVal → Option ℚ
  | .num q => some q
  | .boolV b => some (if b then 1 else 0)
  | _ => none

/-- The generator-sum `sum(aDict[key] for key in aDict)` over the values of a
dict: adds the numeric view of each value in order, raising TypeError at the
first non-numeric value. -/
def sumValues : List (String × PyVal) → Except PyError ℚ
  | [] => .ok 0
  | (_, v) :: rest =>
    match pyNumeric? v with
    | some q => (sumValues rest).map (fun s => q + s)
    | none => .error .typeError

/-- The try-block body of flatten_dict:
`val = float(sum(aDict[key] for key in aDict)) / len(aDict)`.
float of an exact number keeps the value in this Rat model; dividing by
`len(aDict)` raises ZeroDivisionError on an empty dict. -/
def flatten_dict_body (d : List (String × PyVal)) : Except PyError ℚ :=
  match sumValues d with
  | .error e => .error e
  | .ok s =>
    if d.length = 0 then .error .zeroDivisionError
    else .ok (s / (d.length : ℚ))

/-- Outcome of flatten_dict: the returned value or the exception that escapes
it, together with whether self.logger.error was called. -/
structure FlattenResult where
  result : Except PyError ℚ
  errorLogged : Bool
deriving Repr

/-- MQTTClientModule.flatten_dict. On success the final statement
`return val or 0` returns 0 when val is falsy (0.0) and val otherwise — the
same rational either way. When the try-block raises, the except block logs
the error, but the local `val` was never assigned, so `return val or 0`
raises UnboundLocalError, which escapes flatten_dict. -/
def flatten_dict (d : List (String × PyVal)) : FlattenResult :=
  match flatten_dict_body d with
  | .ok v => ⟨.ok (if v = 0 then 0 else v), false⟩
  | .error _ => ⟨.error .unboundLocalError, true⟩

/-- The value of a faceAttributes entry: either a scalar or a nested dict
(`type(faceAttrs[key]) is dict` selects the flatten_dict path). -/
inductive AttrVal
  | scalar : PyVal → AttrVal
  | dict : List (String × PyVal) → AttrVal
deriving DecidableEq, Repr

/-- One per-face prediction record iterated by publish_face_values.
`faceAttributes = none` models a record dict without a faceAttributes key, so
`face['faceAttributes']` raises KeyError. -/
structure Face where
  faceAttributes : Option (List (String × AttrVal))
deriving DecidableEq, Repr

/-- The value stored under a key of message.extended_data. `faces` is a list
of per-face records; `nonIterable` models a malformed entry (for example a
number), over which the `for face in ...` loop raises TypeError. -/
inductive PredVal
  | faces : List Face → PredVal
  | nonIterable : PyVal → PredVal
deriving DecidableEq, Repr

/-- The Message consumed from the inbound queue. The Message class itself
lives in simplesensor.shared (not under src); topic and extended_data are the
fields this module reads, and `fields` stands for the full attribute dict
`message.__dict__` behind the serialization method. -/
structure Message where
  topic : String
  extended_data : List (String × PredVal)
  fields : List (String × PyVal)
deriving DecidableEq, Repr

/-- Body of one faceAttributes entry inside publish_face_values: dict values
go through flatten_dict (whose UnboundLocalError escapes to the surrounding
try), others are used as-is, then self.publish(val, key) is called with the
attribute key as the feed. -/
def publishAttr (cfg : ModuleConfig) (k : String) (v : AttrVal) :
    Except PyError (String × PyVal) :=
  match v with
  | .dict d =>
    match (flatten_dict d).result with
    | .error e => .error e
    | .ok q => publish cfg (.num q) (some k)
  | .scalar s => publish cfg s (some k)

/-- The `for key in faceAttrs` loop: publishes entries in order and stops at
the first exception, returning the pairs already published and the error. -/
def publishAttrs (cfg : ModuleConfig) :
    List (String × AttrVal) → List (String × PyVal) × Option PyError
  | [] => ([], none)
  | (k, v) :: rest =>
    match publishAttr cfg k v with
    | .error e => ([], some e)
    | .ok p =>
      let r := publishAttrs cfg rest
      (p :: r.1, r.2)

/-- The `for face in message.extended_data['predictions']` loop: for each
record, `faceAttrs = face['faceAttributes']` (KeyError when absent) then the
inner attribute loop; stops at the first exception. -/
def publishFaces (cfg : ModuleConfig) :
    List Face → List (String × PyVal) × Option PyError
  | [] => ([], none)
  | f :: rest =>
    match f.faceAttributes with
    | none => ([], some .keyError)
    | some attrs =>
      match publishAttrs cfg attrs with
      | (ps, some e) => (ps, some e)
      | (ps, none) =>
        let r := publishFaces cfg rest
        (ps ++ r.1, r.2)

/-- Outcome of publish_face_values: the (topic, payload) pairs actually
published and whether the except block logged an error. The method catches
every exception of its traversal, so it always returns normally — reflected
in this total return type. -/
structure FaceValuesResult where
  publishes : List (String × PyVal)
  errorLogged : Bool
deriving DecidableEq, Repr

/-- MQTTClientModule.publish_face_values: the whole traversal sits in a
try/except that logs any exception. A missing predictions key raises KeyError
at `message.extended_data['predictions']`; a non-iterable entry raises
TypeError at the for loop; both are caught and logged with zero publishes
issued. Partial publishes issued before a mid-traversal exception stand. -/
def publish_face_values (cfg : ModuleConfig) (m : Message) : FaceValuesResult :=
  match m.extended_data.lookup "predictions" with
  | none => ⟨[], true⟩
  | some (.nonIterable _) => ⟨[], true⟩
  | some (.faces fs) =>
    match publishFaces cfg fs with
    | (ps, none) => ⟨ps, false⟩
    | (ps, some _) => ⟨ps, true⟩

/-- JSON text of one Python value, for the canonical message serialization. -/
def encodePyVal : PyVal → String
  | .str s => "\"" ++ s ++ "\""
  | .num q => toString q.num ++ (if q.den = 1 then "" else "/" ++ toString q.den)
  | .boolV b => if b then "true" else "false"
  | .noneV => "null"

/-- JSON text of the comma-separated field list of a message. -/
def encodeFields : List (String × PyVal) → String
  | [] => ""
  | [(k, v)] => "\"" ++ k ++ "\": " ++ encodePyVal v
  | (k, v) :: rest =>
    "\"" ++ k ++ "\": " ++ encodePyVal v ++ ", " ++ encodeFields rest

/-- Modelled from the spec: Message.stringify, the serialization method of the
Message class (simplesensor.shared, not under src) invoked by
publish_json_message — "The canonical serialization is a UTF-8 encoded JSON
object of all message fields". It renders the field dict as one JSON object
string. -/
def Message.stringify (m : Message) : PyVal :=
  .str ("\x7b" ++ encodeFields m.fields ++ "\x7d")

/-- MQTTClientModule.publish_json_message: `self.publish(message.stringify())`
with the feed argument omitted, so publish takes its falsy-feed path. Returns
the broker publish calls issued (a singleton on success). -/
def publish_json_message (cfg : ModuleConfig) (m : Message) :
    Except PyError (List (String × PyVal)) :=
  match publish cfg (Message.stringify m) none with
  | .error e => .error e
  | .ok p => .ok [p]

/-- Mutable state of the MQTTClientModule worker: the alive flag, the exit
flag set by shutdown, the mqttConnected flag owned by the connect/disconnect
callbacks, and the total seconds passed to time.sleep so far (an effect trace,
so that the grace-period behaviour of shutdown is observable). -/
structure ModuleState where
  alive : Bool
  exitFlag : Bool
  mqttConnected : Bool
  sleptSeconds : ℚ
deriving DecidableEq, Repr

/-- MQTTClientModule.shutdown: logs, sets `self.alive = False`, calls
`time.sleep(1)`, sets `self.exit = True`. The body is unconditional: every
call performs all three steps, including the 1-second sleep. -/
def shutdown (st : ModuleState) : ModuleState :=
  { st with alive := false, sleptSeconds := st.sleptSeconds + 1, exitFlag := true }

/-- Modelled from the spec: publish_values, the target of the final `else`
branch of the dispatch in process_queue, is not defined anywhere under src —
the spec calls this GenericValues mode, "interface only; behavior is
deployment-specific and not otherwise constrained here". The branch is
unreachable because the `elif self._publishFaceData` test raises
AttributeError first (see instanceAttr_publishFaceData). -/
def publish_values (cfg : ModuleConfig) (m : Message) :
    Except PyError (List (String × PyVal)) :=
  .ok []

/-- The mode dispatch of process_queue for one non-shutdown message:
`if self._publishJson: publish_json_message` /
`elif self._publishFaceData: publish_face_values` / `else: publish_values`.
Reading `self._publishFaceData` raises AttributeError because the attribute is
never assigned. Returns the broker publish calls issued, or the exception that
escapes the dispatch. publish_face_values never raises (it catches its own
exceptions), so its branch returns its pairs. -/
def dispatch (cfg : ModuleConfig) (m : Message) :
    Except PyError (List (String × PyVal)) :=
  if cfg.publishJson then
    publish_json_message cfg m
  else
    match instanceAttr_publishFaceData with
    | none => .error .attributeError
    | some b =>
      if b then .ok (publish_face_values cfg m).publishes
      else publish_values cfg m

/-- Observable outcome of handling one dequeued message in process_queue: the
state after the iteration, the broker publish calls issued, and the exception
(if any) caught by the loop-boundary `except`, which logs
"MQTT unable to read queue" and continues. -/
structure StepResult where
  state : ModuleState
  publishes : List (String × PyVal)
  loggedError : Option PyError
deriving DecidableEq, Repr

/-- Python str.upper() as used on message topics: uppercases each character
(character-wise, which agrees with str.upper on the ASCII topics this module
compares against "SHUTDOWN"). -/
def pyUpper (s : String) : String :=
  ⟨s.data.map Char.toUpper⟩

/-- The per-message body of MQTTClientModule.process_queue, from the dequeue
onward: `if message is not None and self.mqttConnected:` guards everything, so
a None message or a disconnected state leaves the message dropped with no
publish and no requeue (the source has no retry or requeue path). A topic
whose upper() is SHUTDOWN invokes shutdown and nothing else; otherwise the
mode dispatch runs under the try whose except logs any exception. -/
def process_message (cfg : ModuleConfig) (st : ModuleState) (m : Option Message) :
    StepResult :=
  match m with
  | none => ⟨st, [], none⟩
  | some msg =>
    if st.mqttConnected then
      if pyUpper msg.topic = "SHUTDOWN" then ⟨shutdown st, [], none⟩
      else
        match dispatch cfg msg with
        | .ok ps => ⟨st, ps, none⟩
        | .error e => ⟨st, [], some e⟩
    else ⟨st, [], none⟩

/-- Splits a character list at dots, the component decomposition LooseVersion
applies to a dotted numeric version string. -/
def splitDots : List Char → List (List Char)
  | [] => [[]]
  | c :: cs =>
    if c = '.' then [] :: splitDots cs
    else
      match splitDots cs with
      | [] => [[c]]
      | g :: gs => (c :: g) :: gs

/-- Numeric value of one version component (a run of decimal digits). -/
def digitsToNat (cs : List Char) : Nat :=
  cs.foldl (fun n c => 10 * n + (c.toNat - 48)) 0

/-- LooseVersion parse of a dotted numeric version string such as "2.0.0":
the list of numeric components. -/
def parseVersion (s : String) : List Nat :=
  (splitDots s.data).map digitsToNat

/-- LooseVersion comparison on parsed components: Python list comparison,
lexicographic with a strict prefix comparing less. -/
def versionLt : List Nat → List Nat → Bool
  | [], [] => false
  | [], _ :: _ => true
  | _ :: _, [] => false
  | a :: as, b :: bs => if a < b then true else if b < a then false else versionLt as bs

/-- MQTTClientModule.check_ss_version: logs the module version, then
`if LooseVersion(self.config['ss_version']) < LooseVersion(self.moduleConfig['MinSimpleSensorVersion']): return False`
(after logging the error) `return True`. No exception path for dotted numeric
versions. -/
def check_ss_version (ssVersion minVersion : String) : Bool :=
  !(versionLt (parseVersion ssVersion) (parseVersion minVersion))

/-- Trace of MQTTClientModule.run: whether the version gate passed, and
whether connect() and process_queue() were reached. run returns False
immediately when check_ss_version fails, before any connect. -/
structure RunTrace where
  versionGatePassed : Bool
  connectCalled : Bool
  processQueueEntered : Bool
deriving DecidableEq, Repr

/-- MQTTClientModule.run: `if not self.check_ss_version(): return False`, then
logs, calls self.connect(), sets alive, and enters process_queue. -/
def run (ssVersion minVersion : String) : RunTrace :=
  if check_ss_version ssVersion minVersion then ⟨true, true, true⟩
  else ⟨false, false, false⟩

/-- Configuration of AzureImagePredictor: subscription key and URI base from
moduleConfig['Azure']. -/
structure AzureConfig where
  subscriptionKey : String
  uriBase : String
deriving DecidableEq, Repr

/-- The HTTP response of requests.post as this module reads it: status_code,
text, and the r.json() payload. -/
structure HttpResponse where
  status_code : Nat
  text : String
  jsonBody : PyVal
deriving DecidableEq, Repr

/-- Outcome of the external REST call within the inner try of
_get_prediction: a response object, or some exception raised by requests.post
or r.json(). -/
inductive RestOutcome
  | response : HttpResponse → RestOutcome
  | raises : RestOutcome
deriving DecidableEq, Repr

/-- The resultData dict returned by get_prediction: exactly one of a
predictions key (whose value may be None) or an error key holding str(e). -/
inductive PredResult
  | predictions : Option PyVal → PredResult
  | errorStr : String → PredResult
deriving DecidableEq, Repr

/-- AzureImagePredictor._get_prediction. A short subscription key raises
EnvironmentError before the inner try, so it escapes to the caller. Inside
the inner try, a non-200 status raises ValueError — but the inner
`except Exception` catches it (and any requests/json exception), only logs,
and the function falls off the end returning None. A 200 response returns the
parsed JSON. -/
def azure_get_prediction_impl (cfg : AzureConfig) (o : RestOutcome) :
    Except String (Option PyVal) :=
  if cfg.subscriptionKey.length < 10 then
    .error ("Azure subscription key - " ++ cfg.subscriptionKey ++ " - is not valid")
  else
    .ok
      (match o with
      | .raises => none
      | .response r => if r.status_code = 200 then some r.jsonBody else none)

/-- AzureImagePredictor.get_prediction: wraps _get_prediction in a try/except;
on success stores the result under the predictions key (even when it is None),
on exception stores str(e) under the error key. -/
def get_prediction (cfg : AzureConfig) (o : RestOutcome) : PredResult :=
  match azure_get_prediction_impl cfg o with
  | .ok t => .predictions t
  | .error e => .errorStr e

/-- C1: the claim states that a call to publish or subscribe with an omitted
(falsy) feed substitutes the configured default feed name before the broker
call. In the code the substitution statement reads the bare name `_feedName`,
which is unbound at module scope, so both calls raise NameError instead of
substituting anything; only an explicit non-empty feed reaches the broker
with the topic path username/feeds/feed. -/
theorem C1_omitted_feed_raises_name_error :
    publish ⟨"user", "dwell", true⟩ (PyVal.str "42") none = .error .nameError
    ∧ subscribe ⟨"user", "dwell", true⟩ none = .error .nameError
    ∧ publish ⟨"user", "dwell", true⟩ (PyVal.str "42") (some "f")
        = .ok ("user/feeds/f", PyVal.str "42") :=
  ⟨rfl, rfl, rfl⟩

/-- C2: the claim states that in RawJSON mode one broker publish with the
canonical JSON payload happens per non-shutdown message processed while
connected. In the code publish_json_message calls self.publish with the feed
omitted, so publish raises NameError on the unbound `_feedName` before any
broker call: zero publishes are issued and the exception is caught and logged
at the loop boundary. -/
theorem C2_rawjson_mode_issues_zero_broker_publishes :
    process_message ⟨"user", "dwell", true⟩ ⟨true, false, true, 0⟩
        (some ⟨"data", [], [("topic", PyVal.str "data")]⟩)
      = ⟨⟨true, false, true, 0⟩, [], some .nameError⟩ := by
  decide

/-- C3: a dequeued message whose topic uppercases to SHUTDOWN, processed
while connected, makes the worker call shutdown — which sets alive to false —
and issues no broker publish for that message. -/
theorem C3_shutdown_topic_sets_dead_and_no_publish (cfg : ModuleConfig)
    (st : ModuleState) (m : Message) (hconn : st.mqttConnected = true)
    (htopic : pyUpper m.topic = "SHUTDOWN") :
    (process_message cfg st (some m)).publishes = []
    ∧ (process_message cfg st (some m)).state.alive = false := by
  simp [process_message, hconn, htopic, shutdown]

/-- Witness for C3 at a concrete lowercase shutdown message in a connected
state. -/
theorem C3_shutdown_topic_sets_dead_and_no_publish_witness :
    (process_message ⟨"u", "f", true⟩ ⟨true, false, true, 0⟩
        (some ⟨"shutdown", [], []⟩)).publishes = []
    ∧ (process_message ⟨"u", "f", true⟩ ⟨true, false, true, 0⟩
        (some ⟨"shutdown", [], []⟩)).state.alive = false :=
  C3_shutdown_topic_sets_dead_and_no_publish _ _ _ rfl (by decide)

/-- C4: the claim states flatten_dict returns the arithmetic mean of a
numeric mapping, and returns 0 (after logging) when the reduction raises. The
mean part holds — for the values 4/5 and 1/5 the result is 1/2 — but the
error path does not return 0: the except block logs, then `return val or 0`
reads the never-assigned local val and raises UnboundLocalError, shown here
on the empty dict (ZeroDivisionError inside the try) and on a non-numeric
value (TypeError inside the try). -/
theorem C4_flatten_dict_mean_but_error_path_raises :
    (flatten_dict [("happy", PyVal.num (4/5)), ("sad", PyVal.num (1/5))]).result
        = .ok (1/2)
    ∧ flatten_dict [] = ⟨.error .unboundLocalError, true⟩
    ∧ (flatten_dict [("a", PyVal.str "x")]).result = .error .unboundLocalError := by
  refine ⟨?_, rfl, rfl⟩
  simp [flatten_dict, flatten_dict_body, sumValues, pyNumeric?, Except.map]
  norm_num

/-- Counterexample to C5 as stated: starting from a fresh running state,
calling shutdown twice accumulates two seconds of time.sleep, exceeding the
single documented 1-second grace period, because the sleep in shutdown is
unconditional. -/
theorem C5_counterexample_second_call_sleeps_again :
    (shutdown (shutdown ⟨true, false, true, 0⟩)).sleptSeconds = 2
    ∧ ¬ ((shutdown (shutdown ⟨true, false, true, 0⟩)).sleptSeconds ≤ 1) := by
  constructor
  · norm_num [shutdown]
  · norm_num [shutdown]

/-- C5 amended: calling shutdown twice leaves alive false and the exit flag
set and raises nothing, and the second call changes no flag the first call
set — but each call sleeps the full 1-second grace period, so two calls sleep
2 seconds in total. -/
theorem C5_shutdown_idempotent_up_to_grace_sleep (st : ModuleState) :
    shutdown (shutdown st)
      = { alive := false, exitFlag := true, mqttConnected := st.mqttConnected,
          sleptSeconds := st.sleptSeconds + 2 }
    ∧ (shutdown (shutdown st)).alive = (shutdown st).alive
    ∧ (shutdown (shutdown st)).exitFlag = (shutdown st).exitFlag
    ∧ (shutdown (shutdown st)).mqttConnected = (shutdown st).mqttConnected := by
  refine ⟨?_, rfl, rfl, rfl⟩
  simp [shutdown]
  ring

/-- C6: with the publish-as-JSON configuration false, the dispatch for a
non-shutdown message processed while connected reads the never-assigned
attribute _publishFaceData, so an AttributeError is raised, caught and logged
at the loop boundary, and no broker publish is issued. -/
theorem C6_publish_face_data_attribute_missing (cfg : ModuleConfig)
    (st : ModuleState) (m : Message) (hjson : cfg.publishJson = false)
    (hconn : st.mqttConnected = true)
    (htopic : pyUpper m.topic ≠ "SHUTDOWN") :
    (process_message cfg st (some m)).loggedError = some .attributeError
    ∧ (process_message cfg st (some m)).publishes = [] := by
  simp [process_message, dispatch, hjson, hconn, htopic,
    instanceAttr_publishFaceData]

/-- Witness for C6 at a concrete non-shutdown message with the JSON flag
false in a connected state. -/
theorem C6_publish_face_data_attribute_missing_witness :
    (process_message ⟨"u", "f", false⟩ ⟨true, false, true, 0⟩
        (some ⟨"data", [], []⟩)).loggedError = some .attributeError
    ∧ (process_message ⟨"u", "f", false⟩ ⟨true, false, true, 0⟩
        (some ⟨"data", [], []⟩)).publishes = [] :=
  C6_publish_face_data_attribute_missing _ _ _ rfl rfl (by decide)

/-- C7: when the predictions entry of extended_data is absent, an empty list,
or malformed (not iterable), publish_face_values issues zero publishes and
returns normally — its total return type reflects the catch-all except around
the traversal, so no exception propagates — and in the absent-key case the
KeyError is logged. -/
theorem C7_missing_predictions_zero_publishes (cfg : ModuleConfig) (m : Message)
    (h : m.extended_data.lookup "predictions" = none
       ∨ m.extended_data.lookup "predictions" = some (PredVal.faces [])
       ∨ ∃ v, m.extended_data.lookup "predictions" = some (PredVal.nonIterable v)) :
    (publish_face_values cfg m).publishes = []
    ∧ (m.extended_data.lookup "predictions" = none →
        (publish_face_values cfg m).errorLogged = true) := by
  rcases h with h | h | ⟨v, h⟩ <;>
    simp [publish_face_values, h, publishFaces]

/-- Witness for C7 at a concrete message with an empty extended_data dict, so
the predictions key is absent. -/
theorem C7_missing_predictions_zero_publishes_witness :
    (publish_face_values ⟨"u", "f", false⟩ ⟨"data", [], []⟩).publishes = []
    ∧ ((Message.mk "data" [] []).extended_data.lookup "predictions" = none →
        (publish_face_values ⟨"u", "f", false⟩ ⟨"data", [], []⟩).errorLogged = true) :=
  C7_missing_predictions_zero_publishes ⟨"u", "f", false⟩ ⟨"data", [], []⟩
    (Or.inl rfl)

/-- C8: a message dequeued while the connection flag is false is dropped: the
step issues no publish, logs nothing, and leaves the state unchanged — and
the step result carries no retry or requeue, mirroring the absence of any
such path in process_queue. -/
theorem C8_disconnected_message_dropped (cfg : ModuleConfig) (st : ModuleState)
    (m : Message) (h : st.mqttConnected = false) :
    process_message cfg st (some m) = ⟨st, [], none⟩ := by
  simp [process_message, h]

/-- Witness for C8 at a concrete message in a disconnected state. -/
theorem C8_disconnected_message_dropped_witness :
    process_message ⟨"u", "f", true⟩ ⟨true, false, false, 0⟩
        (some ⟨"data", [], []⟩)
      = ⟨⟨true, false, false, 0⟩, [], none⟩ :=
  C8_disconnected_message_dropped _ _ _ rfl

/-- C9: whenever the current framework version compares LooseVersion-less
than the declared minimum, check_ss_version returns false without raising and
run returns immediately: connect is never called and process_queue is never
entered. -/
theorem C9_version_gate_blocks_run (cur minv : String)
    (h : versionLt (parseVersion cur) (parseVersion minv) = true) :
    check_ss_version cur minv = false
    ∧ run cur minv = ⟨false, false, false⟩ := by
  simp [check_ss_version, run, h]

/-- Witness for C9 at the versions named by the spec, current 2.0.0 against
minimum 2.1.0. -/
theorem C9_version_gate_blocks_run_witness :
    check_ss_version "2.0.0" "2.1.0" = false
    ∧ run "2.0.0" "2.1.0" = ⟨false, false, false⟩ :=
  C9_version_gate_blocks_run "2.0.0" "2.1.0" (by decide)

/-- C10: the claim states that a failed REST call — invalid subscription key
or a non-200 response — yields a result carrying an error string. The short
key case does, but on a non-200 response the inner except of _get_prediction
swallows the ValueError and the function returns None, so get_prediction
returns a predictions property holding None and no error property; a 200
response yields the parsed JSON under predictions. -/
theorem C10_non_200_swallowed_into_predictions_none :
    get_prediction ⟨"0123456789abc", "eastus.api"⟩
        (RestOutcome.response ⟨500, "boom", PyVal.noneV⟩)
      = PredResult.predictions none
    ∧ get_prediction ⟨"short", "eastus.api"⟩ RestOutcome.raises
      = PredResult.errorStr "Azure subscription key - short - is not valid"
    ∧ get_prediction ⟨"0123456789abc", "eastus.api"⟩
        (RestOutcome.response ⟨200, "", PyVal.num 1⟩)
      = PredResult.predictions (some (PyVal.num 1)) :=
  ⟨rfl, rfl, rfl⟩

end SimpleSensor
